import Mathlib

/-!
Shallow embedding of the Cybershuttle MCP server's authentication core
(`src/cybershuttle_auth.py`) and of the gateway's token handling
(`src/cybershuttle_mcp_server.py`).

Modelling conventions:
* Timestamps (`time.time()`, `datetime.now()`) are modelled as `Int` epoch
  seconds.  All arithmetic the code performs on them (`now + expires_in`,
  `expires_at - 300`) is exact at these magnitudes, so no floating-point
  rounding is modelled.
* `os.environ['CS_ACCESS_TOKEN']` and the token file live in a `World`
  record that operations thread explicitly.  File I/O failures are modelled
  by boolean fault flags in the `World`.
* Python truthiness: `if x:` on an optional string is false for `None` and
  for the empty string; on an optional number it is false for `None` and `0`.
* HTTP traffic is modelled by scripts: the device endpoint's answer is a
  `Phase1Result`, the token endpoint's consecutive answers are a
  `List PollResponse` consumed one per poll attempt.
-/

/-- Python truthiness of an optional string: `None` and `""` are falsy. -/
def truthyStr : Option String → Bool
  | none => false
  | some s => !(s == "")

/-- Python truthiness of an optional number: `None` and `0` are falsy. -/
def truthyInt : Option Int → Bool
  | none => false
  | some t => !(t == 0)

/-- A parsed JSON body answered by the token endpoint on HTTP 200
(`token_response` in `device_flow_auth`): the fields `_save_token` reads. -/
structure TokenResp where
  access_token : Option String
  refresh_token : Option String
  expires_in : Option Int
  deriving Repr, DecidableEq

/-- Contents of `~/.cybershuttle/token.json` as written by `_save_token`
(the `token_info` dict). -/
structure TokenFile where
  access_token : Option String
  refresh_token : Option String
  expires_at : Option Int
  timestamp : Int
  deriving Repr, DecidableEq

/-- The process environment and file system visible to the auth helper,
plus the current clock.  `save_io_error` (resp. `load_io_error`) makes the
file write in `_save_token` (resp. the file read in `_load_token`) raise. -/
structure World where
  env_cs_token : Option String
  token_file : Option TokenFile
  save_io_error : Bool
  load_io_error : Bool
  now : Int
  deriving Repr, DecidableEq

/-- In-memory token state of a `CybershuttleAuth` instance. -/
structure CybershuttleAuth where
  access_token : Option String
  refresh_token : Option String
  token_expires_at : Option Int
  deriving Repr, DecidableEq

/-- `CybershuttleAuth.__init__` run in a world: fields start `None`, then
`self.access_token = os.getenv('CS_ACCESS_TOKEN')`. -/
def CybershuttleAuth.init (w : World) : CybershuttleAuth :=
  { access_token := w.env_cs_token, refresh_token := none, token_expires_at := none }

/-- `CybershuttleAuth._is_token_valid`:
`if not self.access_token or not self.token_expires_at: return False`
then `return time.time() < (self.token_expires_at - 300)`. -/
def CybershuttleAuth.is_token_valid (st : CybershuttleAuth) (now : Int) : Bool :=
  if !truthyStr st.access_token || !truthyInt st.token_expires_at then false
  else
    match st.token_expires_at with
    | none => false
    | some e => decide (now < e - 300)

/-- `CybershuttleAuth._save_token`: updates the in-memory triple, mirrors the
access token into `os.environ['CS_ACCESS_TOKEN']`, then tries to write the
file; a write error is logged and swallowed.  Returns `none` when the Python
would raise `TypeError` (the environment assignment with a `None` token). -/
def CybershuttleAuth.save_token (_st : CybershuttleAuth) (w : World) (token_data : TokenResp) :
    Option (CybershuttleAuth × World) :=
  match token_data.access_token with
  | none => none
  | some tok =>
    let expires_in := token_data.expires_in.getD 3600
    let st' : CybershuttleAuth :=
      { access_token := some tok
        refresh_token := token_data.refresh_token
        token_expires_at := some (w.now + expires_in) }
    let file : TokenFile :=
      { access_token := some tok
        refresh_token := token_data.refresh_token
        expires_at := some (w.now + expires_in)
        timestamp := w.now }
    if w.save_io_error then
      some (st', { w with env_cs_token := some tok })
    else
      some (st', { w with env_cs_token := some tok, token_file := some file })

/-- `CybershuttleAuth._load_token`: returns `false` when the file is absent or
unreadable; otherwise copies the file's fields into memory and, when the
loaded access token is truthy, mirrors it into the environment. -/
def CybershuttleAuth.load_token (st : CybershuttleAuth) (w : World) :
    Bool × CybershuttleAuth × World :=
  match w.token_file with
  | none => (false, st, w)
  | some f =>
    if w.load_io_error then (false, st, w)
    else
      let st' : CybershuttleAuth :=
        { access_token := f.access_token
          refresh_token := f.refresh_token
          token_expires_at := f.expires_at }
      let w' :=
        if truthyStr f.access_token then
          { w with env_cs_token := f.access_token }
        else w
      (true, st', w')

/-- One answer of the token endpoint to a polling POST in
`device_flow_auth` step 3. -/
inductive PollResponse where
  /-- HTTP 200 with a token body. -/
  | ok (token_response : TokenResp)
  /-- HTTP 400; the argument is the body's `error` field. -/
  | badRequest (error : Option String)
  /-- Any other HTTP status. -/
  | otherStatus (status_code : Nat) (text : String)
  /-- `requests.RequestException` while polling. -/
  | netError
  deriving Repr, DecidableEq

/-- Outcome of the polling loop (and of `device_flow_auth`), together with
the number of token-endpoint POSTs made. -/
inductive FlowResult where
  /-- `return True`: token obtained and saved. -/
  | success (st : CybershuttleAuth) (w : World) (attempts : Nat)
  /-- `return False` with the loop's state untouched. -/
  | failure (attempts : Nat)
  /-- The response script ran out: the real loop would still be polling. -/
  | hang
  /-- Unhandled `TypeError` (token body without `access_token`). -/
  | typeError
  deriving Repr, DecidableEq

/-- Step 3 of `device_flow_auth`: the `while True` polling loop, consuming
one scripted response per POST.  `n` counts the POSTs already made.  The
code sets `os.environ['CS_ACCESS_TOKEN']` on HTTP 200 and then calls
`_save_token`, which sets it again; `authorization_pending` sleeps and
retries; any other 400 error, any other status, and network errors return
`False`. -/
def pollLoop (st : CybershuttleAuth) (w : World) :
    List PollResponse → Nat → FlowResult
  | [], _ => .hang
  | r :: rs, n =>
    match r with
    | .ok tr =>
      match tr.access_token with
      | none => .typeError
      | some tok =>
        match st.save_token { w with env_cs_token := some tok } tr with
        | none => .typeError
        | some (st', w') => .success st' w' (n + 1)
    | .badRequest err =>
      if err == some "authorization_pending" then pollLoop st w rs (n + 1)
      else .failure (n + 1)
    | .otherStatus _ _ => .failure (n + 1)
    | .netError => .failure (n + 1)

/-- Parsed JSON body answered by the device endpoint on HTTP 200
(phase 1 of `device_flow_auth`). -/
structure DeviceResp where
  device_code : Option String
  user_code : Option String
  verification_uri : Option String
  verification_uri_complete : Option String
  expires_in : Option Int
  interval : Option Int
  deriving Repr, DecidableEq

/-- The device endpoint's answer to the phase-1 POST. -/
inductive Phase1Result where
  | ok (d : DeviceResp)
  | httpError (status_code : Nat) (text : String)
  | netError
  deriving Repr, DecidableEq

/-- `CybershuttleAuth.device_flow_auth`: phase 1 failure (non-200 or network
error) returns `False` before any token-endpoint POST; otherwise the poll
loop runs.  The device response's fields only reach the user prompt and the
sleep interval, so they do not affect the modelled state. -/
def CybershuttleAuth.device_flow_auth (st : CybershuttleAuth) (w : World)
    (p1 : Phase1Result) (script : List PollResponse) : FlowResult :=
  match p1 with
  | .httpError _ _ => .failure 0
  | .netError => .failure 0
  | .ok _ => pollLoop st w script 0

/-- Instrumented result of `get_access_token`: the returned token, the
final state and world, and which branches ran. -/
structure GetTokenTrace where
  result : Option String
  st : CybershuttleAuth
  w : World
  /-- The `CS_ACCESS_TOKEN` override branch returned. -/
  used_override : Bool
  /-- `_is_token_valid` was consulted. -/
  checked_validity : Bool
  /-- `device_flow_auth` ran. -/
  invoked_flow : Bool
  deriving Repr, DecidableEq

/-- `CybershuttleAuth.get_access_token`: env override first (truthy check),
else load from file, else validity check on the (possibly loaded) state,
else the device flow.  `none` models a call that does not return (the poll
script ran out, or an unhandled `TypeError`). -/
def CybershuttleAuth.get_access_token (st : CybershuttleAuth) (w : World)
    (p1 : Phase1Result) (script : List PollResponse) : Option GetTokenTrace :=
  if truthyStr w.env_cs_token then
    some { result := w.env_cs_token
           st := { st with access_token := w.env_cs_token }
           w := w
           used_override := true, checked_validity := false, invoked_flow := false }
  else
    let loaded := st.load_token w
    let st1 := loaded.2.1
    let w1 := loaded.2.2
    if st1.is_token_valid w.now then
      some { result := st1.access_token, st := st1, w := w1
             used_override := false, checked_validity := true, invoked_flow := false }
    else
      match st1.device_flow_auth w1 p1 script with
      | .success st2 w2 _ =>
        some { result := st2.access_token, st := st2, w := w2
               used_override := false, checked_validity := true, invoked_flow := true }
      | .failure _ =>
        some { result := none, st := st1, w := w1
               used_override := false, checked_validity := true, invoked_flow := true }
      | .hang => none
      | .typeError => none

/-!
Gateway side (`src/cybershuttle_mcp_server.py`): module-level `AuthState`,
`get_auth_token`, `refresh_auth_token`, `make_authenticated_request`.
-/

/-- `fastapi.HTTPException` as raised by the gateway: status code and detail. -/
structure HTTPExceptionModel where
  status_code : Nat
  detail : String
  deriving Repr, DecidableEq

/-- Starlette renders `str(HTTPException)` as `"{status_code}: {detail}"`. -/
def HTTPExceptionModel.str (e : HTTPExceptionModel) : String :=
  toString e.status_code ++ ": " ++ e.detail

/-- The gateway's module-level `AuthState`. -/
structure AuthState where
  token : Option String
  token_expires_at : Option Int
  refresh_token : Option String
  deriving Repr, DecidableEq

/-- `AuthState.is_token_valid`: both fields are compared against `None`
(`is not None`, no truthiness), then `datetime.now() < token_expires_at`. -/
def AuthState.is_token_valid (st : AuthState) (now : Int) : Bool :=
  st.token.isSome && st.token_expires_at.isSome &&
    (match st.token_expires_at with
     | none => false
     | some e => decide (now < e))

/-- `refresh_auth_token`: reads `CS_ACCESS_TOKEN` from the environment; a
missing or falsy value raises `HTTPException(401, ...)`, which the
surrounding `except Exception` re-wraps as
`HTTPException(401, "Authentication failed: " + str(e))`.  On success the
token is stored with `token_expires_at = datetime.now() + timedelta(hours=1)`. -/
def refresh_auth_token (env_cs_token : Option String) (now : Int) (st : AuthState) :
    Except HTTPExceptionModel AuthState :=
  if truthyStr env_cs_token then
    Except.ok { st with token := env_cs_token, token_expires_at := some (now + 3600) }
  else
    let inner : HTTPExceptionModel :=
      { status_code := 401
        detail := "CS_ACCESS_TOKEN environment variable not set. Please authenticate with Cybershuttle first." }
    Except.error { status_code := 401, detail := "Authentication failed: " ++ inner.str }

/-- `get_auth_token`: refreshes when the cached token is invalid, then raises
`HTTPException(401, ...)` if the resulting token is falsy, else returns it
(paired with the updated `AuthState`). -/
def get_auth_token (env_cs_token : Option String) (now : Int) (st : AuthState) :
    Except HTTPExceptionModel (String × AuthState) :=
  let step : Except HTTPExceptionModel AuthState :=
    if st.is_token_valid now then Except.ok st
    else refresh_auth_token env_cs_token now st
  match step with
  | Except.error e => Except.error e
  | Except.ok st1 =>
    if truthyStr st1.token then
      match st1.token with
      | some t => Except.ok (t, st1)
      | none => Except.error { status_code := 401, detail := "Unable to authenticate with Cybershuttle API" }
    else
      Except.error { status_code := 401, detail := "Unable to authenticate with Cybershuttle API" }

/-- An HTTP response from the upstream catalog API as seen by
`make_authenticated_request`: status line data and body. -/
structure UpstreamResponse where
  status_code : Nat
  reason : String
  url : String
  body : String
  deriving Repr, DecidableEq

/-- The message of the `requests.exceptions.HTTPError` that
`Response.raise_for_status` raises: for 4xx
`"{code} Client Error: {reason} for url: {url}"`, for 5xx
`"{code} Server Error: {reason} for url: {url}"`, otherwise no error.
The response body is not part of the message. -/
def raise_for_status_msg (r : UpstreamResponse) : Option String :=
  if 400 ≤ r.status_code ∧ r.status_code < 500 then
    some (toString r.status_code ++ " Client Error: " ++ r.reason ++ " for url: " ++ r.url)
  else if 500 ≤ r.status_code ∧ r.status_code < 600 then
    some (toString r.status_code ++ " Server Error: " ++ r.reason ++ " for url: " ++ r.url)
  else
    none

/-- What the upstream call inside `make_authenticated_request` produced. -/
inductive UpstreamResult where
  | response (r : UpstreamResponse)
  /-- `requests.exceptions.RequestException` (network-level), with `str(e)`. -/
  | netError (msg : String)
  deriving Repr, DecidableEq

/-- The response-handling tail of `make_authenticated_request` (the token was
already obtained): `raise_for_status`, then either the body is returned, or
the `HTTPError` is re-raised as
`HTTPException(status_code=response.status_code, detail="Cybershuttle API error: " + str(e))`,
and network errors become
`HTTPException(500, "Failed to connect to Cybershuttle API: " + str(e))`. -/
def make_authenticated_request (u : UpstreamResult) :
    Except HTTPExceptionModel String :=
  match u with
  | .netError msg =>
    Except.error { status_code := 500, detail := "Failed to connect to Cybershuttle API: " ++ msg }
  | .response r =>
    match raise_for_status_msg r with
    | none => Except.ok r.body
    | some msg =>
      Except.error { status_code := r.status_code, detail := "Cybershuttle API error: " ++ msg }

/-! ## Helper lemmas -/

/-- When `CS_ACCESS_TOKEN` holds a truthy value, `get_access_token` returns
it from the override branch without loading, validating, or starting the
device flow. -/
theorem get_access_token_env_override (st : CybershuttleAuth) (w : World)
    (p1 : Phase1Result) (script : List PollResponse) (t : String)
    (henv : w.env_cs_token = some t) (ht : t ≠ "") :
    st.get_access_token w p1 script =
      some { result := some t, st := { st with access_token := some t }, w := w,
             used_override := true, checked_validity := false, invoked_flow := false } := by
  simp [CybershuttleAuth.get_access_token, truthyStr, henv, ht]

/-! ## Claims -/

/-- C1: a token record with a nonempty access token and a nonzero expiry is
judged valid by `_is_token_valid` exactly when `now < expires_at - 300`;
in particular `expires_at = now + 300 - 1` is judged invalid and
`expires_at = now + 300 + 1` is judged valid. -/
theorem C1_token_validity_boundary :
    (∀ (st : CybershuttleAuth) (now e : Int) (tok : String),
      st.access_token = some tok → tok ≠ "" →
      st.token_expires_at = some e → e ≠ 0 →
      (st.is_token_valid now = true ↔ now < e - 300)) ∧
    (∀ (st : CybershuttleAuth) (now : Int) (tok : String),
      st.access_token = some tok → tok ≠ "" →
      st.token_expires_at = some (now + 300 - 1) → now + 300 - 1 ≠ 0 →
      st.is_token_valid now = false) ∧
    (∀ (st : CybershuttleAuth) (now : Int) (tok : String),
      st.access_token = some tok → tok ≠ "" →
      st.token_expires_at = some (now + 300 + 1) → now + 300 + 1 ≠ 0 →
      st.is_token_valid now = true) := by
  refine ⟨?_, ?_, ?_⟩
  · intro st now e tok h1 h2 h3 h4
    simp [CybershuttleAuth.is_token_valid, truthyStr, truthyInt, h1, h2, h3, h4]
  · intro st now tok h1 h2 h3 h4
    simp [CybershuttleAuth.is_token_valid, truthyStr, truthyInt, h1, h2, h3, h4]
  · intro st now tok h1 h2 h3 h4
    simp [CybershuttleAuth.is_token_valid, truthyStr, truthyInt, h1, h2, h3, h4]
    omega

/-- C1 witness: at `now = 1000`, a record expiring at `1299` is invalid, one
expiring at `1301` is valid, and the general boundary holds at `1400`. -/
theorem C1_token_validity_boundary_witness :
    CybershuttleAuth.is_token_valid ⟨some "tok", none, some 1299⟩ 1000 = false ∧
    CybershuttleAuth.is_token_valid ⟨some "tok", none, some 1301⟩ 1000 = true ∧
    CybershuttleAuth.is_token_valid ⟨some "tok", none, some 1400⟩ 1000 = true :=
  ⟨C1_token_validity_boundary.2.1 ⟨some "tok", none, some 1299⟩ 1000 "tok" rfl
      (by decide) rfl (by decide),
   C1_token_validity_boundary.2.2 ⟨some "tok", none, some 1301⟩ 1000 "tok" rfl
      (by decide) rfl (by decide),
   (C1_token_validity_boundary.1 ⟨some "tok", none, some 1400⟩ 1000 1400 "tok" rfl
      (by decide) rfl (by decide)).mpr (by decide)⟩

/-- C2: a truthy `CS_ACCESS_TOKEN` in the environment is returned verbatim by
`get_access_token`, with no validity or expiry check and no device flow, for
every state and world — in particular when the store holds a different,
valid token record. -/
theorem C2_env_override_wins (st : CybershuttleAuth) (w : World)
    (p1 : Phase1Result) (script : List PollResponse) (t : String)
    (henv : w.env_cs_token = some t) (ht : t ≠ "") :
    ∃ tr : GetTokenTrace, st.get_access_token w p1 script = some tr ∧
      tr.result = some t ∧ tr.used_override = true ∧
      tr.checked_validity = false ∧ tr.invoked_flow = false :=
  ⟨_, get_access_token_env_override st w p1 script t henv ht, rfl, rfl, rfl, rfl⟩

/-- C2 witness: the override `"OVERRIDE"` wins over a stored record holding
the different token `"STORED"` that is itself valid at `now = 0`. -/
theorem C2_env_override_wins_witness :
    CybershuttleAuth.is_token_valid ⟨some "STORED", none, some 100000⟩ 0 = true ∧
    ∃ tr : GetTokenTrace,
      CybershuttleAuth.get_access_token ⟨none, none, none⟩
        ⟨some "OVERRIDE", some ⟨some "STORED", none, some 100000, 0⟩, false, false, 0⟩
        Phase1Result.netError [] = some tr ∧
      tr.result = some "OVERRIDE" ∧ tr.used_override = true ∧
      tr.checked_validity = false ∧ tr.invoked_flow = false :=
  ⟨by decide,
   C2_env_override_wins ⟨none, none, none⟩
     ⟨some "OVERRIDE", some ⟨some "STORED", none, some 100000, 0⟩, false, false, 0⟩
     Phase1Result.netError [] "OVERRIDE" rfl (by decide)⟩

/-- C5: saving a token and then loading yields a record with the same
`access_token`, `refresh_token`, and `expires_at` (exact, hence within any
floating-point tolerance), provided the file I/O itself does not fault. -/
theorem C5_save_load_roundtrip (td : TokenResp) (st st0 : CybershuttleAuth) (w : World)
    (st1 : CybershuttleAuth) (w1 : World)
    (hsave : st.save_token w td = some (st1, w1))
    (hio : w.save_io_error = false) (hload : w.load_io_error = false) :
    (st0.load_token w1).1 = true ∧
    (st0.load_token w1).2.1.access_token = st1.access_token ∧
    (st0.load_token w1).2.1.refresh_token = st1.refresh_token ∧
    (st0.load_token w1).2.1.token_expires_at = st1.token_expires_at := by
  cases htok : td.access_token with
  | none => simp [CybershuttleAuth.save_token, htok] at hsave
  | some tok =>
    simp [CybershuttleAuth.save_token, htok, hio] at hsave
    obtain ⟨h1, h2⟩ := hsave
    subst h1
    subst h2
    simp [CybershuttleAuth.load_token, hload]

/-- C5 witness: a concrete round trip at `now = 50`. -/
theorem C5_save_load_roundtrip_witness :
    (CybershuttleAuth.load_token ⟨none, none, none⟩
        ⟨some "A", some ⟨some "A", some "R", some 150, 50⟩, false, false, 50⟩).1 = true ∧
    (CybershuttleAuth.load_token ⟨none, none, none⟩
        ⟨some "A", some ⟨some "A", some "R", some 150, 50⟩, false, false, 50⟩).2.1.access_token
      = some "A" ∧
    (CybershuttleAuth.load_token ⟨none, none, none⟩
        ⟨some "A", some ⟨some "A", some "R", some 150, 50⟩, false, false, 50⟩).2.1.refresh_token
      = some "R" ∧
    (CybershuttleAuth.load_token ⟨none, none, none⟩
        ⟨some "A", some ⟨some "A", some "R", some 150, 50⟩, false, false, 50⟩).2.1.token_expires_at
      = some 150 :=
  C5_save_load_roundtrip ⟨some "A", some "R", some 100⟩ ⟨none, none, none⟩
    ⟨none, none, none⟩ ⟨none, none, false, false, 50⟩
    ⟨some "A", some "R", some 150⟩
    ⟨some "A", some ⟨some "A", some "R", some 150, 50⟩, false, false, 50⟩
    rfl rfl rfl

/-- C7: when the file write faults, `_save_token` still succeeds: the
in-memory triple and the environment mirror are fully updated to the new
record, and only the file is left untouched. -/
theorem C7_save_io_error_keeps_memory (td : TokenResp) (st : CybershuttleAuth)
    (w : World) (tok : String)
    (htok : td.access_token = some tok) (hio : w.save_io_error = true) :
    st.save_token w td =
      some ({ access_token := some tok, refresh_token := td.refresh_token,
              token_expires_at := some (w.now + td.expires_in.getD 3600) },
            { w with env_cs_token := some tok }) := by
  simp [CybershuttleAuth.save_token, htok, hio]

/-- C7 witness: a faulting save at `now = 10` still installs the token
`"B"` in memory and in the environment, and leaves the file absent. -/
theorem C7_save_io_error_keeps_memory_witness :
    CybershuttleAuth.save_token ⟨none, none, none⟩ ⟨none, none, true, false, 10⟩
        ⟨some "B", some "RB", some 60⟩ =
      some (⟨some "B", some "RB", some 70⟩, ⟨some "B", none, true, false, 10⟩) :=
  C7_save_io_error_keeps_memory ⟨some "B", some "RB", some 60⟩ ⟨none, none, none⟩
    ⟨none, none, true, false, 10⟩ "B" rfl rfl

/-- Pending answers are transparent to the poll loop: each one only advances
the attempt counter. -/
theorem pollLoop_pending_replicate (st : CybershuttleAuth) (w : World)
    (N : Nat) (rest : List PollResponse) (n : Nat) :
    pollLoop st w
        (List.replicate N (PollResponse.badRequest (some "authorization_pending")) ++ rest) n =
      pollLoop st w rest (n + N) := by
  induction N generalizing n with
  | zero => simp
  | succ k ih =>
    rw [List.replicate_succ, List.cons_append]
    show pollLoop st w _ (n + 1) = _
    rw [ih (n + 1)]
    congr 1
    omega

/-- C3: a script of N `authorization_pending` answers followed by an HTTP 200
token answer makes the poll loop terminate successfully after exactly N + 1
attempts, with the delivered token installed as the stored access token (in
memory and in the environment mirror). -/
theorem C3_pending_then_success (N : Nat) (st : CybershuttleAuth) (w : World)
    (tok : String) (rt : Option String) (ei : Option Int) :
    ∃ (st' : CybershuttleAuth) (w' : World),
      pollLoop st w
          (List.replicate N (PollResponse.badRequest (some "authorization_pending")) ++
            [PollResponse.ok ⟨some tok, rt, ei⟩]) 0 =
        FlowResult.success st' w' (N + 1) ∧
      st'.access_token = some tok ∧ w'.env_cs_token = some tok := by
  rw [pollLoop_pending_replicate]
  by_cases hio : w.save_io_error
  · refine ⟨⟨some tok, rt, some (w.now + ei.getD 3600)⟩,
      { w with env_cs_token := some tok }, ?_, rfl, rfl⟩
    simp [pollLoop, CybershuttleAuth.save_token, hio]
  · refine ⟨⟨some tok, rt, some (w.now + ei.getD 3600)⟩,
      { w with env_cs_token := some tok,
               token_file := some ⟨some tok, rt, some (w.now + ei.getD 3600), w.now⟩ },
      ?_, rfl, rfl⟩
    simp [pollLoop, CybershuttleAuth.save_token, hio]

/-- C4: the first HTTP 400 answer whose error is not `authorization_pending`
aborts the poll loop with failure at that attempt; the remainder of the
script is never consumed. -/
theorem C4_terminal_error_aborts (pre : List PollResponse) (err : Option String)
    (rest : List PollResponse) (st : CybershuttleAuth) (w : World)
    (hpre : ∀ r ∈ pre, r = PollResponse.badRequest (some "authorization_pending"))
    (herr : err ≠ some "authorization_pending") :
    pollLoop st w (pre ++ PollResponse.badRequest err :: rest) 0 =
      FlowResult.failure (pre.length + 1) := by
  have hrep : pre = List.replicate pre.length
      (PollResponse.badRequest (some "authorization_pending")) :=
    List.eq_replicate_iff.mpr ⟨rfl, hpre⟩
  rw [hrep, pollLoop_pending_replicate]
  have hne : (err == some "authorization_pending") = false := by
    simpa using herr
  simp [pollLoop, hne]

/-- C4 witness: after one pending answer, `access_denied` aborts at attempt 2
even though two more answers remain scripted. -/
theorem C4_terminal_error_aborts_witness :
    pollLoop ⟨none, none, none⟩ ⟨none, none, false, false, 0⟩
        ([PollResponse.badRequest (some "authorization_pending")] ++
          PollResponse.badRequest (some "access_denied") ::
            [PollResponse.badRequest (some "authorization_pending"),
             PollResponse.ok ⟨some "LATE", none, none⟩]) 0 =
      FlowResult.failure 2 :=
  C4_terminal_error_aborts [PollResponse.badRequest (some "authorization_pending")]
    (some "access_denied")
    [PollResponse.badRequest (some "authorization_pending"),
     PollResponse.ok ⟨some "LATE", none, none⟩]
    ⟨none, none, none⟩ ⟨none, none, false, false, 0⟩
    (by decide) (by decide)

/-- C6: fresh process (no env token, no file): `get_access_token` runs the
device flow against a mock that answers pending once and then issues `"T1"`,
and returns `"T1"`; a second call in the same process returns `"T1"` again
through the override branch, without device flow or validity check. -/
theorem C6_first_auth_then_cache_hit (n : Int) (p1' : Phase1Result)
    (script' : List PollResponse) :
    ∃ tr : GetTokenTrace,
      CybershuttleAuth.get_access_token ⟨none, none, none⟩ ⟨none, none, false, false, n⟩
          (Phase1Result.ok ⟨some "D1", some "U1", some "https://auth/verify", none, none, some 1⟩)
          [PollResponse.badRequest (some "authorization_pending"),
           PollResponse.ok ⟨some "T1", none, some 3600⟩] = some tr ∧
      tr.result = some "T1" ∧ tr.invoked_flow = true ∧
      ∃ tr2 : GetTokenTrace,
        tr.st.get_access_token tr.w p1' script' = some tr2 ∧
        tr2.result = some "T1" ∧ tr2.used_override = true ∧
        tr2.checked_validity = false ∧ tr2.invoked_flow = false := by
  refine ⟨{ result := some "T1",
            st := ⟨some "T1", none, some (n + 3600)⟩,
            w := ⟨some "T1", some ⟨some "T1", none, some (n + 3600), n⟩, false, false, n⟩,
            used_override := false, checked_validity := true, invoked_flow := true },
          ?_, rfl, rfl, ?_⟩
  · simp [CybershuttleAuth.get_access_token, CybershuttleAuth.load_token,
          CybershuttleAuth.is_token_valid, CybershuttleAuth.device_flow_auth,
          pollLoop, CybershuttleAuth.save_token, truthyStr, truthyInt]
  · exact ⟨_, get_access_token_env_override _ _ p1' script' "T1" rfl (by decide),
           rfl, rfl, rfl, rfl⟩

/-- Whenever the poll loop succeeds, the token it installed in memory is also
mirrored in the `CS_ACCESS_TOKEN` environment variable. -/
theorem pollLoop_success_env (script : List PollResponse) (st : CybershuttleAuth)
    (w : World) (n m : Nat) (st' : CybershuttleAuth) (w' : World)
    (h : pollLoop st w script n = FlowResult.success st' w' m) :
    ∃ t, st'.access_token = some t ∧ w'.env_cs_token = some t := by
  induction script generalizing n with
  | nil => simp [pollLoop] at h
  | cons r rs ih =>
    cases r with
    | ok tr =>
      cases htok : tr.access_token with
      | none => simp [pollLoop, htok] at h
      | some tok =>
        by_cases hio : w.save_io_error <;>
          simp [pollLoop, htok, CybershuttleAuth.save_token, hio] at h <;>
          exact ⟨tok, by rw [← h.1], by rw [← h.2.1]⟩
    | badRequest err =>
      by_cases he : (err == some "authorization_pending") = true
      · rw [pollLoop, if_pos he] at h
        exact ih (n + 1) h
      · rw [pollLoop, if_neg he] at h
        exact absurd h (by simp)
    | otherStatus c t => simp [pollLoop] at h
    | netError => simp [pollLoop] at h

/-- A successful `device_flow_auth` leaves the obtained access token both in
memory and in the environment mirror. -/
theorem device_flow_auth_success_env (st : CybershuttleAuth) (w : World)
    (p1 : Phase1Result) (script : List PollResponse)
    (st' : CybershuttleAuth) (w' : World) (m : Nat)
    (h : st.device_flow_auth w p1 script = FlowResult.success st' w' m) :
    ∃ t, st'.access_token = some t ∧ w'.env_cs_token = some t := by
  cases p1 with
  | ok d => exact pollLoop_success_env script st w 0 m st' w' h
  | httpError c t => simp [CybershuttleAuth.device_flow_auth] at h
  | netError => simp [CybershuttleAuth.device_flow_auth] at h

/-- When `get_access_token` returns a token after having run the device flow,
that token is mirrored in `CS_ACCESS_TOKEN` of the resulting world. -/
theorem get_access_token_flow_sets_env (st : CybershuttleAuth) (w : World)
    (p1 : Phase1Result) (script : List PollResponse) (tr : GetTokenTrace) (t : String)
    (h : st.get_access_token w p1 script = some tr)
    (hflow : tr.invoked_flow = true) (hres : tr.result = some t) :
    tr.w.env_cs_token = some t := by
  unfold CybershuttleAuth.get_access_token at h
  split at h
  · cases h
    simp at hflow
  · dsimp only at h
    split at h
    · cases h
      simp at hflow
    · split at h
      next st2 w2 m hd =>
        cases h
        obtain ⟨t0, ha, he⟩ :=
          device_flow_auth_success_env _ _ p1 script st2 w2 m hd
        simp only at hres
        rw [ha] at hres
        rw [Option.some.inj hres] at he
        exact he
      next hd =>
        cases h
        simp at hres
      next hd => cases h
      next hd => cases h

/-- C9: once a device-flow authentication has succeeded inside
`get_access_token` and returned a (nonempty) token, that token sits in the
`CS_ACCESS_TOKEN` mirror; and as long as that mirror is intact, every later
`get_access_token` call — with any state, any clock, any endpoint behaviour —
returns the mirrored token through the override branch, with no validity
check and no device flow. -/
theorem C9_env_mirror_prevents_reauth (st : CybershuttleAuth) (w : World)
    (p1 : Phase1Result) (script : List PollResponse) (tr : GetTokenTrace) (t : String)
    (h : st.get_access_token w p1 script = some tr)
    (hflow : tr.invoked_flow = true) (hres : tr.result = some t) (ht : t ≠ "") :
    tr.w.env_cs_token = some t ∧
    ∀ (st' : CybershuttleAuth) (w' : World) (p1' : Phase1Result)
      (script' : List PollResponse), w'.env_cs_token = some t →
      ∃ tr2 : GetTokenTrace, st'.get_access_token w' p1' script' = some tr2 ∧
        tr2.result = some t ∧ tr2.used_override = true ∧
        tr2.checked_validity = false ∧ tr2.invoked_flow = false := by
  refine ⟨get_access_token_flow_sets_env st w p1 script tr t h hflow hres, ?_⟩
  intro st' w' p1' script' henv
  exact ⟨_, get_access_token_env_override st' w' p1' script' t henv ht, rfl, rfl, rfl, rfl⟩

/-- C9 witness: a concrete flow at `now = 1000` issues `"T9"`; afterwards a
call at the much later time `999999` (long past `expires_at = 4600`) still
returns `"T9"` via the override branch. -/
theorem C9_env_mirror_prevents_reauth_witness :
    (⟨some "T9", none, some 4600⟩ : CybershuttleAuth).token_expires_at = some 4600 ∧
    ∃ tr2 : GetTokenTrace,
      CybershuttleAuth.get_access_token ⟨some "stale", none, some 4600⟩
        ⟨some "T9", some ⟨some "T9", none, some 4600, 1000⟩, false, false, 999999⟩
        Phase1Result.netError [] = some tr2 ∧
      tr2.result = some "T9" ∧ tr2.used_override = true ∧
      tr2.checked_validity = false ∧ tr2.invoked_flow = false :=
  ⟨rfl,
   (C9_env_mirror_prevents_reauth ⟨none, none, none⟩ ⟨none, none, false, false, 1000⟩
      (Phase1Result.ok ⟨some "D9", some "U9", some "https://auth/verify", none, none, some 1⟩)
      [PollResponse.ok ⟨some "T9", none, some 3600⟩]
      { result := some "T9",
        st := ⟨some "T9", none, some 4600⟩,
        w := ⟨some "T9", some ⟨some "T9", none, some 4600, 1000⟩, false, false, 1000⟩,
        used_override := false, checked_validity := true, invoked_flow := true }
      "T9" rfl rfl rfl (by decide)).2
     ⟨some "stale", none, some 4600⟩
     ⟨some "T9", some ⟨some "T9", none, some 4600, 1000⟩, false, false, 999999⟩
     Phase1Result.netError [] rfl⟩

set_option maxRecDepth 8192 in
/-- C8 counterexample: a concrete upstream 404 whose body is
`"SECRET_BODY_42"` is surfaced as an `HTTPException` that keeps status 404
but whose detail does not contain the body anywhere — the upstream response
body is not preserved in the surfaced error. -/
theorem C8_body_not_preserved :
    ∃ e : HTTPExceptionModel,
      make_authenticated_request (UpstreamResult.response
          ⟨404, "Not Found", "https://api.dev.cybershuttle.org:18899/resources",
            "SECRET_BODY_42"⟩) = Except.error e ∧
      e.status_code = 404 ∧
      ¬ ("SECRET_BODY_42".data <:+: e.detail.data) := by
  refine ⟨_, rfl, rfl, by decide⟩


/-- C8 (amended): the surfaced `HTTPException` preserves the upstream status
code, and its detail carries the status code, reason phrase and URL of the
upstream error response; the upstream body is not part of it. -/
theorem C8_status_code_passthrough (r : UpstreamResponse)
    (h4 : 400 ≤ r.status_code) (h6 : r.status_code < 600) :
    ∃ e : HTTPExceptionModel,
      make_authenticated_request (UpstreamResult.response r) = Except.error e ∧
      e.status_code = r.status_code ∧
      (toString r.status_code).data <:+: e.detail.data ∧
      r.reason.data <:+: e.detail.data ∧
      r.url.data <:+: e.detail.data := by
  by_cases h5 : r.status_code < 500
  · refine ⟨⟨r.status_code, "Cybershuttle API error: " ++
        (toString r.status_code ++ " Client Error: " ++ r.reason ++ " for url: " ++ r.url)⟩,
      ?_, rfl, ?_, ?_, ?_⟩
    · simp [make_authenticated_request, raise_for_status_msg, h4, h5]
    · exact ⟨"Cybershuttle API error: ".data,
        " Client Error: ".data ++ (r.reason.data ++ (" for url: ".data ++ r.url.data)),
        by simp [String.data_append]⟩
    · exact ⟨"Cybershuttle API error: ".data ++
          ((toString r.status_code).data ++ " Client Error: ".data),
        " for url: ".data ++ r.url.data, by simp [String.data_append]⟩
    · exact ⟨"Cybershuttle API error: ".data ++ ((toString r.status_code).data ++
          (" Client Error: ".data ++ (r.reason.data ++ " for url: ".data))), [],
        by simp [String.data_append]⟩
  · have h5' : 500 ≤ r.status_code := by omega
    refine ⟨⟨r.status_code, "Cybershuttle API error: " ++
        (toString r.status_code ++ " Server Error: " ++ r.reason ++ " for url: " ++ r.url)⟩,
      ?_, rfl, ?_, ?_, ?_⟩
    · simp [make_authenticated_request, raise_for_status_msg, h4, h5, h5', h6]
    · exact ⟨"Cybershuttle API error: ".data,
        " Server Error: ".data ++ (r.reason.data ++ (" for url: ".data ++ r.url.data)),
        by simp [String.data_append]⟩
    · exact ⟨"Cybershuttle API error: ".data ++
          ((toString r.status_code).data ++ " Server Error: ".data),
        " for url: ".data ++ r.url.data, by simp [String.data_append]⟩
    · exact ⟨"Cybershuttle API error: ".data ++ ((toString r.status_code).data ++
          (" Server Error: ".data ++ (r.reason.data ++ " for url: ".data))), [],
        by simp [String.data_append]⟩

/-- C8 witness: a concrete 503 is surfaced with status 503 and a detail
carrying "503", the reason phrase and the URL. -/
theorem C8_status_code_passthrough_witness :
    ∃ e : HTTPExceptionModel,
      make_authenticated_request (UpstreamResult.response
          ⟨503, "Service Unavailable", "https://api.dev.cybershuttle.org:18899/projects",
            "upstream overloaded"⟩) = Except.error e ∧
      e.status_code = 503 ∧
      (toString 503).data <:+: e.detail.data ∧
      "Service Unavailable".data <:+: e.detail.data ∧
      "https://api.dev.cybershuttle.org:18899/projects".data <:+: e.detail.data :=
  C8_status_code_passthrough
    ⟨503, "Service Unavailable", "https://api.dev.cybershuttle.org:18899/projects",
      "upstream overloaded"⟩ (by decide) (by decide)

/-- C10: the gateway's token resolution never runs a device flow: a
successful `refresh_auth_token` stores exactly the `CS_ACCESS_TOKEN`
environment value and stamps it with expiry `now + 3600` regardless of the
token's real lifetime; and when the variable is unset (and no valid cached
token exists) `get_auth_token` fails with HTTP 401. -/
theorem C10_gateway_env_only :
    (∀ (env_cs_token : Option String) (now : Int) (st st' : AuthState),
      refresh_auth_token env_cs_token now st = Except.ok st' →
      st'.token = env_cs_token ∧ st'.token_expires_at = some (now + 3600) ∧
        st'.refresh_token = st.refresh_token) ∧
    (∀ (now : Int) (st : AuthState), st.is_token_valid now = false →
      ∃ e : HTTPExceptionModel, get_auth_token none now st = Except.error e ∧
        e.status_code = 401) := by
  constructor
  · intro env now st st' hok
    by_cases henv : truthyStr env = true
    · simp [refresh_auth_token, henv] at hok
      rw [← hok]
      exact ⟨rfl, rfl, rfl⟩
    · simp [refresh_auth_token, henv] at hok
  · intro now st hvalid
    refine ⟨⟨401, "Authentication failed: " ++ HTTPExceptionModel.str
        ⟨401, "CS_ACCESS_TOKEN environment variable not set. Please authenticate with Cybershuttle first."⟩⟩,
      ?_, rfl⟩
    simp [get_auth_token, hvalid, refresh_auth_token, truthyStr, HTTPExceptionModel.str]

/-- C10 witness: with `CS_ACCESS_TOKEN = "ENVTOK"` at `now = 5` the stored
token is exactly `"ENVTOK"` with expiry `3605`; with the variable unset and
an empty cache, `get_auth_token` fails with status 401. -/
theorem C10_gateway_env_only_witness :
    ((⟨some "ENVTOK", some (5 + 3600), none⟩ : AuthState).token = some "ENVTOK" ∧
      (⟨some "ENVTOK", some (5 + 3600), none⟩ : AuthState).token_expires_at =
        some (5 + 3600) ∧
      (⟨some "ENVTOK", some (5 + 3600), none⟩ : AuthState).refresh_token =
        (⟨none, none, none⟩ : AuthState).refresh_token) ∧
    ∃ e : HTTPExceptionModel, get_auth_token none 0 ⟨none, none, none⟩ = Except.error e ∧
      e.status_code = 401 :=
  ⟨C10_gateway_env_only.1 (some "ENVTOK") 5 ⟨none, none, none⟩
      ⟨some "ENVTOK", some (5 + 3600), none⟩ rfl,
   C10_gateway_env_only.2 0 ⟨none, none, none⟩ (by decide)⟩
